import Mathlib

/-!
# Gesture / carousel / orbit controller of `src/main.js`

A shallow embedding of the stateful logic of `src/main.js`: the module-level
variables become a `State`, the DOM elements looked up at load time become a
read-only `Dom`, each event listener becomes a function from a state to a new
state together with the list of `gsap.to` requests it issued.

Number model.
* `Date.now()` and `window.innerWidth` are integers (`Int`).
* Wheel deltas, touch coordinates and measured heights are finite doubles
  delivered by the browser; they are embedded as rationals (`ℚ`), comparisons
  and the sign of a difference are those of the exact values.
* Everything derived from `Math.PI`, `Math.cos`, `Math.sin` lives in an arbitrary
  field `α`, with the three `Math` members passed in as a `JSMath α`; the
  theorems about angles instantiate `α` with `ℝ` and the real `π`, `cos`, `sin`.
* `currentTitleIndex` is an integer-valued JavaScript number or `NaN`; it is
  embedded as `Option Int` with `none` standing for `NaN` (the two zeros of
  JavaScript are identified).

Not embedded: rendering, textures, lights, `normalizeViewports` (it only writes
CSS styles) and the per-frame self-rotation of each planet mesh (it writes
`planetMesh.rotation.y`, which nothing below reads).
-/

namespace Planets

/-- The members of the JavaScript `Math` object that the program uses. -/
structure JSMath (α : Type) where
  PI : α
  cos : α → α
  sin : α → α

/-- Position of one planet mesh inside the `spheres` group (`position.x`, `position.z`). -/
structure Sphere (α : Type) where
  x : α
  z : α

/-- The module-level mutable variables of `main.js`. `rotationY` is the rotation
target: `spheres.rotation.y` as it stands once the rotation tweens issued so far
have run to their end. A relative tween `+=s` ends at its start value plus `s`, and
it starts from the previous target because the one-second tweens are issued at
least `throttleDelay` apart. -/
structure State (α : Type) where
  rotationStep : α
  orbitradius : α
  spheres : List (Sphere α)
  rotationY : α
  lastWheelTime : Int
  currentTitleIndex : Option Int
  touchStartY : Option ℚ

/-- The four elements fetched with `document.getElementById` at load time, as the
handlers see them: `none` / `false` when the element is missing, otherwise the
height of the bounding rectangle of a viewport, the number of children of the
heading stack, and the mere presence of the paragraph stack. -/
structure Dom where
  titleViewport : Option ℚ
  titleStack : Option Nat
  paraViewport : Option ℚ
  paraStack : Bool

/-- One `gsap.to` request (all with `duration: 1`, `ease: 'power2.inOut'`).
`rotationY plus s` targets `spheres.rotation` with `y: "+=s"` (`plus = true`) or
`y: "-=s"`; the other two target the `y` offset of a text stack, `none` being `NaN`. -/
inductive Tween (α : Type) where
  | rotationY (plus : Bool) (amount : α)
  | titleStackY (y : Option ℚ)
  | paraStackY (y : Option ℚ)

/-- The events the module subscribes to, with what the listener reads from them:
`Date.now()` at the time of a gesture, `e.deltaY`, the `clientY` of the touches,
`window.innerWidth` at a resize. -/
inductive Event where
  | wheel (now : Int) (deltaY : ℚ)
  | touchstart (touches : List ℚ)
  | touchend (now : Int) (changedTouches : List ℚ)
  | resize (innerWidth : Int)

/-- The constant `throttleDelay = 2000` (milliseconds), line 60. -/
def throttleDelay : Int := 2000

/-- The array `planetConfigs`, line 147: the texture paths of the four planets. -/
def planetConfigs : List String :=
  ["/earth/map.jpg", "/venus/map.jpg", "/volcanic/color.png", "/csilla/color.png"]

/-- The helper `getMaxTitleIndex`, line 113 (defined in the module, called nowhere):
`titleStack ? Math.max(0, titleStack.children.length - 1) : 0`. -/
def getMaxTitleIndex (dom : Dom) : Int :=
  match dom.titleStack with
  | some children => max 0 ((children : Int) - 1)
  | none => 0

/-- JavaScript `a % b` on a number that is an integer or `NaN` and an integer
modulus: `NaN` propagates, a zero modulus gives `NaN`, otherwise the remainder
has the sign of the dividend. -/
def jsRem (a : Option Int) (b : Int) : Option Int :=
  match a with
  | none => none
  | some x => if b = 0 then none else some (Int.tmod x b)

/-- The offset `-currentTitleIndex * stepHeight` requested for a text stack. -/
def offsetY (idx : Option Int) (stepHeight : ℚ) : Option ℚ :=
  idx.map fun i => -(i : ℚ) * stepHeight

set_option linter.unusedSectionVars false

variable {α : Type} [Field α]

/-- The `wheel` listener, lines 115-143. -/
def wheel (dom : Dom) (s : State α) (now : Int) (deltaY : ℚ) : State α × List (Tween α) :=
  if now - s.lastWheelTime < throttleDelay then (s, [])
  else
    let s1 := { s with lastWheelTime := now }
    let direction : Int := if deltaY > 0 then 1 else -1
    let t1 : List (Tween α) := [Tween.rotationY (decide (direction > 0)) s1.rotationStep]
    let s2 := { s1 with rotationY :=
      if direction > 0 then s1.rotationY + s1.rotationStep else s1.rotationY - s1.rotationStep }
    let r2 : State α × List (Tween α) :=
      match dom.titleViewport, dom.titleStack with
      | some stepHeight, some total =>
        let idx := jsRem (s2.currentTitleIndex.map fun i => i + direction + (total : Int)) total
        ({ s2 with currentTitleIndex := idx }, [Tween.titleStackY (offsetY idx stepHeight)])
      | _, _ => (s2, [])
    let t3 : List (Tween α) :=
      match dom.paraViewport, dom.paraStack with
      | some paraStep, true => [Tween.paraStackY (offsetY r2.1.currentTitleIndex paraStep)]
      | _, _ => []
    (r2.1, t1 ++ r2.2 ++ t3)

/-- The `touchstart` listener, lines 217-219. -/
def touchstart (s : State α) (touches : List ℚ) : State α :=
  match touches with
  | clientY :: _ => { s with touchStartY := some clientY }
  | [] => s

/-- The `touchend` listener, lines 221-251. -/
def touchend (dom : Dom) (s : State α) (now : Int) (changedTouches : List ℚ) :
    State α × List (Tween α) :=
  match s.touchStartY with
  | none => (s, [])
  | some startY =>
    let touchEndY : ℚ :=
      match changedTouches with
      | clientY :: _ => clientY
      | [] => startY
    let deltaY := startY - touchEndY
    let s0 := { s with touchStartY := none }
    if now - s0.lastWheelTime < throttleDelay then (s0, [])
    else
      let s1 := { s0 with lastWheelTime := now }
      let direction : Int := if deltaY > 0 then 1 else -1
      let t1 : List (Tween α) := [Tween.rotationY (decide (direction > 0)) s1.rotationStep]
      let s2 := { s1 with rotationY :=
        if direction > 0 then s1.rotationY + s1.rotationStep else s1.rotationY - s1.rotationStep }
      let r2 : State α × List (Tween α) :=
        match dom.titleViewport, dom.titleStack with
        | some stepHeight, some total =>
          let idx := jsRem (s2.currentTitleIndex.map fun i => i + direction + (total : Int)) total
          ({ s2 with currentTitleIndex := idx }, [Tween.titleStackY (offsetY idx stepHeight)])
        | _, _ => (s2, [])
      let t3 : List (Tween α) :=
        match dom.paraViewport, dom.paraStack with
        | some paraStep, true => [Tween.paraStackY (offsetY r2.1.currentTitleIndex paraStep)]
        | _, _ => []
      (r2.1, t1 ++ r2.2 ++ t3)

/-- The function `updateOrbitRadius`, lines 156-169, with `window.innerWidth` as an argument. -/
def updateOrbitRadius (M : JSMath α) (width : Int) (s : State α) : State α :=
  let orbitradius : α :=
    if width < 480 then 3.2
    else if width < 768 then 3.8
    else if width < 1024 then 4.2
    else 4.5
  { s with
    orbitradius := orbitradius
    spheres := s.spheres.mapIdx fun i sphere =>
      let angle := ((i : α) / (s.spheres.length : α)) * (M.PI * 2)
      { sphere with x := orbitradius * M.cos angle, z := orbitradius * M.sin angle } }

/-- The creation loop, lines 172-189: one sphere per entry of the configuration,
appended to the group in order. -/
def createSpheres (M : JSMath α) (orbitradius : α) (n : Nat) : List (Sphere α) :=
  (List.range n).foldl
    (fun (children : List (Sphere α)) (i : Nat) =>
      let angle := ((i : α) / (n : α)) * (M.PI * 2)
      children ++ [{ x := orbitradius * M.cos angle, z := orbitradius * M.sin angle }])
    []

/-- The state once the module body has run, for a list of planet configurations
and the `window.innerWidth` read by the first `updateOrbitRadius()` (line 196). -/
def init (M : JSMath α) (configs : List String) (innerWidth : Int) : State α :=
  let s0 : State α :=
    { rotationStep := M.PI / 2
      orbitradius := 4.5
      spheres := []
      rotationY := 0
      lastWheelTime := 0
      currentTitleIndex := some 0
      touchStartY := none }
  let s1 := { s0 with rotationStep := (M.PI * 2) / (configs.length : α) }
  let s2 := { s1 with spheres := createSpheres M s1.orbitradius configs.length }
  let s3 := { s2 with rotationY := -M.PI / 2 }
  updateOrbitRadius M innerWidth s3

/-- Dispatch of one event to its listener. -/
def handle (M : JSMath α) (dom : Dom) (s : State α) : Event → State α × List (Tween α)
  | Event.wheel now deltaY => wheel dom s now deltaY
  | Event.touchstart touches => (touchstart s touches, [])
  | Event.touchend now changedTouches => touchend dom s now changedTouches
  | Event.resize innerWidth => (updateOrbitRadius M innerWidth s, [])

/-- The state after a sequence of events. -/
def run (M : JSMath α) (dom : Dom) (s : State α) : List Event → State α
  | [] => s
  | ev :: rest => run M dom (handle M dom s ev).1 rest

/-- The timestamps of the events of a sequence that issued at least one tween,
in order of arrival. -/
def transitions (M : JSMath α) (dom : Dom) (s : State α) : List Event → List Int
  | [] => []
  | ev :: rest =>
    let r := handle M dom s ev
    let later := transitions M dom r.1 rest
    match r.2, ev with
    | _ :: _, Event.wheel now _ => now :: later
    | _ :: _, Event.touchend now _ => now :: later
    | _, _ => later

/-- The time of a gesture event: a wheel event, or a touchend arriving while a
touch start is recorded; `none` for every other event. -/
def gestureTime (s : State α) : Event → Option Int
  | Event.wheel now _ => some now
  | Event.touchend now _ => if s.touchStartY.isSome then some now else none
  | Event.touchstart _ => none
  | Event.resize _ => none

/-- The delta of a gesture event: `deltaY` of a wheel event, `startY - endY` of a
touchend, where `endY` falls back to `startY` when no touch changed. -/
def gestureDelta (s : State α) : Event → Option ℚ
  | Event.wheel _ deltaY => some deltaY
  | Event.touchend _ changedTouches =>
    match s.touchStartY, changedTouches with
    | some startY, clientY :: _ => some (startY - clientY)
    | some startY, [] => some (startY - startY)
    | none, _ => none
  | Event.touchstart _ => none
  | Event.resize _ => none

/-- The direction of the transition an event started, read off the rotation
request it issued first: `+1` for `"+="`, `-1` for `"-="`, and `none` when the
event issued no rotation request (it was not an accepted gesture). -/
def issuedDirection : List (Tween α) → Option Int
  | Tween.rotationY plus _ :: _ => some (if plus then 1 else -1)
  | _ => none

/-- The directions issued along a sequence of events, in order of arrival. -/
def directions (M : JSMath α) (dom : Dom) (s : State α) : List Event → List Int
  | [] => []
  | ev :: rest =>
    match issuedDirection (handle M dom s ev).2 with
    | some d => d :: directions M dom (handle M dom s ev).1 rest
    | none => directions M dom (handle M dom s ev).1 rest

/-! ## Sample pages used by the concrete instances -/

/-- A page with both viewports and both stacks, four headings, viewport heights of
120 and 96 pixels. -/
def pageDom : Dom :=
  { titleViewport := some 120, titleStack := some 4, paraViewport := some 96, paraStack := true }

/-- A page on which none of the four text elements exists. -/
def bareDom : Dom :=
  { titleViewport := none, titleStack := none, paraViewport := none, paraStack := false }

/-- A page like `pageDom` with a single heading. -/
def singleHeadingDom : Dom :=
  { titleViewport := some 120, titleStack := some 1, paraViewport := some 96, paraStack := true }

/-- A page whose heading viewport and heading stack exist, the stack having no
children, and which has no paragraph elements. -/
def emptyStackDom : Dom :=
  { titleViewport := some 0, titleStack := some 0, paraViewport := none, paraStack := false }

/-- A sample stream of events: a wheel step, a swipe, a wheel event inside the
cooldown, and two more wheel steps, all forward. -/
def sampleEvents : List Event :=
  [Event.wheel 1790000000000 120, Event.touchstart [300],
    Event.touchend 1790000002000 [100], Event.wheel 1790000002500 5,
    Event.wheel 1790000004000 1, Event.wheel 1790000006000 3]

/-! ## Lemmas on the two gesture listeners -/

theorem touchend_eq_wheel (dom : Dom) (s : State α) (now : Int) (startY : ℚ)
    (changedTouches : List ℚ) (h : s.touchStartY = some startY) :
    touchend dom s now changedTouches =
      ({ (wheel dom s now (startY - changedTouches.headD startY)).1 with touchStartY := none },
        (wheel dom s now (startY - changedTouches.headD startY)).2) := by
  have hd : (match changedTouches with | clientY :: _ => clientY | [] => startY)
      = changedTouches.headD startY := by cases changedTouches <;> rfl
  simp only [touchend, wheel, h, hd]
  by_cases hlt : now - s.lastWheelTime < throttleDelay
  · simp [hlt]
  · simp only [hlt, if_false]
    cases dom.titleViewport <;> cases dom.titleStack <;> rfl

theorem wheel_reject (dom : Dom) (s : State α) (now : Int) (deltaY : ℚ)
    (h : now - s.lastWheelTime < 2000) : wheel dom s now deltaY = (s, []) := by
  simp [wheel, throttleDelay, h]

theorem wheel_accept (dom : Dom) (s : State α) (now : Int) (deltaY : ℚ)
    (h : ¬ now - s.lastWheelTime < 2000) :
    (wheel dom s now deltaY).1.lastWheelTime = now ∧
    (wheel dom s now deltaY).1.rotationY =
      (if deltaY > 0 then s.rotationY + s.rotationStep else s.rotationY - s.rotationStep) ∧
    (wheel dom s now deltaY).1.currentTitleIndex =
      (match dom.titleViewport, dom.titleStack with
        | some _, some total =>
          jsRem (s.currentTitleIndex.map fun i => i + (if deltaY > 0 then 1 else -1) + (total : Int))
            total
        | _, _ => s.currentTitleIndex) ∧
    (∃ rest, (wheel dom s now deltaY).2 =
      Tween.rotationY (decide (deltaY > 0)) s.rotationStep :: rest) := by
  have hdir : ((if deltaY > 0 then (1 : Int) else -1) > 0) ↔ deltaY > 0 := by
    split <;> simp_all
  simp only [wheel, throttleDelay, h, if_false, hdir]
  cases dom.titleViewport <;> cases dom.titleStack <;> simp

theorem wheel_frame (dom : Dom) (s : State α) (now : Int) (deltaY : ℚ) :
    (wheel dom s now deltaY).1.rotationStep = s.rotationStep ∧
    (wheel dom s now deltaY).1.orbitradius = s.orbitradius ∧
    (wheel dom s now deltaY).1.spheres = s.spheres ∧
    (wheel dom s now deltaY).1.touchStartY = s.touchStartY := by
  simp only [wheel]
  split
  · simp
  · cases dom.titleViewport <;> cases dom.titleStack <;> simp

theorem touchend_none (dom : Dom) (s : State α) (now : Int) (changedTouches : List ℚ)
    (h : s.touchStartY = none) : touchend dom s now changedTouches = (s, []) := by
  simp [touchend, h]

theorem gestureDelta_touchend (s : State α) (now : Int) (startY : ℚ) (changedTouches : List ℚ)
    (h : s.touchStartY = some startY) :
    gestureDelta s (Event.touchend now changedTouches)
      = some (startY - changedTouches.headD startY) := by
  cases changedTouches <;> simp [gestureDelta, h]

/-- A gesture that arrives before the cooldown has elapsed issues nothing and
changes no variable other than `touchStartY`. -/
theorem handle_reject (M : JSMath α) (dom : Dom) (s : State α) (ev : Event) (now : Int)
    (hg : gestureTime s ev = some now) (h : now - s.lastWheelTime < 2000) :
    (handle M dom s ev).2 = [] ∧
    { (handle M dom s ev).1 with touchStartY := s.touchStartY } = s := by
  cases ev with
  | wheel t deltaY =>
    simp only [gestureTime, Option.some.injEq] at hg
    subst hg
    simp [handle, wheel_reject dom s t deltaY h]
  | touchstart touches => simp [gestureTime] at hg
  | touchend t changedTouches =>
    cases hs : s.touchStartY with
    | none => simp [gestureTime, hs] at hg
    | some startY =>
      simp only [gestureTime, hs, Option.isSome_some, if_true, Option.some.injEq] at hg
      subst hg
      simp only [handle, touchend_eq_wheel dom s t startY changedTouches hs,
        wheel_reject dom s t _ h]
      simp [← hs]
  | resize w => simp [gestureTime] at hg

/-- A gesture that arrives once the cooldown has elapsed issues a rotation request
whose sign is that of its delta. -/
theorem handle_accept (M : JSMath α) (dom : Dom) (s : State α) (ev : Event) (now : Int)
    (delta : ℚ) (hg : gestureTime s ev = some now) (hd : gestureDelta s ev = some delta)
    (h : 2000 ≤ now - s.lastWheelTime) :
    ∃ rest, (handle M dom s ev).2 =
      Tween.rotationY (decide (delta > 0)) s.rotationStep :: rest := by
  have hn : ¬ now - s.lastWheelTime < 2000 := by omega
  cases ev with
  | wheel t deltaY =>
    simp only [gestureTime, Option.some.injEq] at hg
    simp only [gestureDelta, Option.some.injEq] at hd
    subst hg; subst hd
    exact (wheel_accept dom s t deltaY hn).2.2.2
  | touchstart touches => simp [gestureTime] at hg
  | touchend t changedTouches =>
    cases hs : s.touchStartY with
    | none => simp [gestureTime, hs] at hg
    | some startY =>
      simp only [gestureTime, hs, Option.isSome_some, if_true, Option.some.injEq] at hg
      rw [gestureDelta_touchend s t startY changedTouches hs, Option.some.injEq] at hd
      subst hg; subst hd
      simp only [handle, touchend_eq_wheel dom s t startY changedTouches hs]
      exact (wheel_accept dom s t _ hn).2.2.2
  | resize w => simp [gestureTime] at hg

/-- Whatever issued a rotation request was a gesture past its cooldown, and the
new state is the old one advanced by the issued direction. -/
theorem handle_issued (M : JSMath α) (dom : Dom) (s : State α) (ev : Event) (d : Int)
    (h : issuedDirection (handle M dom s ev).2 = some d) :
    ∃ now delta, gestureTime s ev = some now ∧ gestureDelta s ev = some delta ∧
      2000 ≤ now - s.lastWheelTime ∧ d = (if delta > 0 then 1 else -1) ∧
      (handle M dom s ev).1.lastWheelTime = now ∧
      (handle M dom s ev).1.rotationY = s.rotationY + (d : α) * s.rotationStep ∧
      (handle M dom s ev).1.currentTitleIndex =
        (match dom.titleViewport, dom.titleStack with
          | some _, some total =>
            jsRem (s.currentTitleIndex.map fun i => i + d + (total : Int)) total
          | _, _ => s.currentTitleIndex) ∧
      (handle M dom s ev).1.rotationStep = s.rotationStep := by
  have key : ∀ (t : Int) (deltaY : ℚ),
      issuedDirection (wheel dom s t deltaY).2 = some d →
      2000 ≤ t - s.lastWheelTime ∧ d = (if deltaY > 0 then 1 else -1) ∧
      (wheel dom s t deltaY).1.lastWheelTime = t ∧
      (wheel dom s t deltaY).1.rotationY = s.rotationY + (d : α) * s.rotationStep ∧
      (wheel dom s t deltaY).1.currentTitleIndex =
        (match dom.titleViewport, dom.titleStack with
          | some _, some total =>
            jsRem (s.currentTitleIndex.map fun i => i + d + (total : Int)) total
          | _, _ => s.currentTitleIndex) ∧
      (wheel dom s t deltaY).1.rotationStep = s.rotationStep := by
    intro t deltaY hw
    by_cases hlt : t - s.lastWheelTime < 2000
    · rw [wheel_reject dom s t deltaY hlt] at hw
      simp [issuedDirection] at hw
    · obtain ⟨h1, h2, h3, rest, h4⟩ := wheel_accept dom s t deltaY hlt
      rw [h4] at hw
      simp only [issuedDirection, Option.some.injEq] at hw
      have hdd : d = (if deltaY > 0 then 1 else -1) := by
        rw [← hw]; by_cases hp : deltaY > 0 <;> simp [hp]
      refine ⟨by omega, hdd, h1, ?_, ?_, (wheel_frame dom s t deltaY).1⟩
      · rw [h2, hdd]; by_cases hp : deltaY > 0 <;> simp [hp, sub_eq_add_neg]
      · rw [h3, hdd]
  cases ev with
  | wheel t deltaY =>
    exact ⟨t, deltaY, rfl, rfl, key t deltaY h⟩
  | touchstart touches => simp [handle, issuedDirection] at h
  | touchend t changedTouches =>
    cases hs : s.touchStartY with
    | none =>
      simp [handle, touchend_none dom s t changedTouches hs, issuedDirection] at h
    | some startY =>
      simp only [handle, touchend_eq_wheel dom s t startY changedTouches hs] at h ⊢
      exact ⟨t, _, by simp [gestureTime, hs], gestureDelta_touchend s t startY changedTouches hs,
        key t _ h⟩
  | resize w => simp [handle, issuedDirection] at h

/-- An event that issued no rotation request issued nothing at all and left the
throttle timestamp, the carousel index, the rotation and its step alone. -/
theorem handle_not_issued (M : JSMath α) (dom : Dom) (s : State α) (ev : Event)
    (h : issuedDirection (handle M dom s ev).2 = none) :
    (handle M dom s ev).2 = [] ∧
    (handle M dom s ev).1.lastWheelTime = s.lastWheelTime ∧
    (handle M dom s ev).1.rotationY = s.rotationY ∧
    (handle M dom s ev).1.currentTitleIndex = s.currentTitleIndex ∧
    (handle M dom s ev).1.rotationStep = s.rotationStep := by
  have key : ∀ (t : Int) (deltaY : ℚ),
      issuedDirection (wheel dom s t deltaY).2 = none → wheel dom s t deltaY = (s, []) := by
    intro t deltaY hw
    by_cases hlt : t - s.lastWheelTime < 2000
    · exact wheel_reject dom s t deltaY hlt
    · obtain ⟨_, _, _, rest, h4⟩ := wheel_accept dom s t deltaY hlt
      rw [h4] at hw
      simp [issuedDirection] at hw
  cases ev with
  | wheel t deltaY => simp [handle, key t deltaY h]
  | touchstart touches => cases touches <;> simp [handle, touchstart]
  | touchend t changedTouches =>
    cases hs : s.touchStartY with
    | none => simp [handle, touchend_none dom s t changedTouches hs]
    | some startY =>
      simp only [handle, touchend_eq_wheel dom s t startY changedTouches hs] at h ⊢
      rw [key t _ h]
      exact ⟨rfl, rfl, rfl, rfl, rfl⟩
  | resize w => simp [handle, updateOrbitRadius]

theorem gestureDelta_of_time (s : State α) (ev : Event) (now : Int)
    (hg : gestureTime s ev = some now) : ∃ delta, gestureDelta s ev = some delta := by
  cases ev with
  | wheel t deltaY => exact ⟨deltaY, rfl⟩
  | touchstart touches => simp [gestureTime] at hg
  | touchend t changedTouches =>
    cases hs : s.touchStartY with
    | none => simp [gestureTime, hs] at hg
    | some startY => exact ⟨_, gestureDelta_touchend s t startY changedTouches hs⟩
  | resize w => simp [gestureTime] at hg

theorem touchstart_frame (s : State α) (touches : List ℚ) :
    (touchstart s touches).lastWheelTime = s.lastWheelTime ∧
    (touchstart s touches).currentTitleIndex = s.currentTitleIndex ∧
    (touchstart s touches).rotationY = s.rotationY ∧
    (touchstart s touches).rotationStep = s.rotationStep := by
  cases touches <;> simp [touchstart]

theorem jsRem_step (n : Nat) (i d : Int) (hn : 1 ≤ n) (h0 : 0 ≤ i) (hd : d = 1 ∨ d = -1) :
    jsRem (some (i + d + (n : Int))) n = some ((i + d + (n : Int)) % (n : Int)) := by
  have hne : ¬ ((n : Int) = 0) := by omega
  have hnn : 0 ≤ i + d + (n : Int) := by rcases hd with h | h <;> omega
  simp only [jsRem, hne, if_false]
  rw [Int.tmod_eq_emod hnn (by omega)]

theorem issuedDirection_cases (ts : List (Tween α)) (d : Int)
    (h : issuedDirection ts = some d) : d = 1 ∨ d = -1 := by
  cases ts with
  | nil => simp [issuedDirection] at h
  | cons t rest =>
    cases t with
    | rotationY plus amount =>
      cases plus <;> simp [issuedDirection] at h <;> omega
    | titleStackY y => simp [issuedDirection] at h
    | paraStackY y => simp [issuedDirection] at h

/-- With both heading elements present and `itemCount ≥ 1` children, an event that
issued direction `d` from an in-range index `i` leaves the index at
`(i + d + itemCount) % itemCount`. -/
theorem index_after_issued (M : JSMath α) (dom : Dom) (s : State α) (ev : Event)
    (stepHeight : ℚ) (itemCount : Nat) (i d : Int)
    (hv : dom.titleViewport = some stepHeight) (hs : dom.titleStack = some itemCount)
    (hn : 1 ≤ itemCount) (hi : s.currentTitleIndex = some i) (h0 : 0 ≤ i)
    (hd : issuedDirection (handle M dom s ev).2 = some d) :
    (handle M dom s ev).1.currentTitleIndex
      = some ((i + d + (itemCount : Int)) % (itemCount : Int)) := by
  obtain ⟨_, _, _, _, _, _, _, _, hidx, _⟩ := handle_issued M dom s ev d hd
  rw [hidx, hv, hs, hi]
  exact jsRem_step itemCount i d hn h0 (issuedDirection_cases _ d hd)

/-! ## Lemmas on the orbit layout -/

theorem foldl_append_singleton {β γ : Type} (f : β → γ) (l : List β) (acc : List γ) :
    l.foldl (fun children i => children ++ [f i]) acc = acc ++ l.map f := by
  induction l generalizing acc with
  | nil => simp
  | cons a l ih => simp [ih]

theorem createSpheres_eq_map (M : JSMath α) (r : α) (n : Nat) :
    createSpheres M r n = (List.range n).map fun (i : Nat) =>
      ({ x := r * M.cos (((i : α) / (n : α)) * (M.PI * 2)),
         z := r * M.sin (((i : α) / (n : α)) * (M.PI * 2)) } : Sphere α) := by
  simp only [createSpheres]
  rw [foldl_append_singleton]
  simp

theorem createSpheres_length (M : JSMath α) (r : α) (n : Nat) :
    (createSpheres M r n).length = n := by
  simp [createSpheres_eq_map]

theorem createSpheres_getElem? (M : JSMath α) (r : α) (n i : Nat) (h : i < n) :
    (createSpheres M r n)[i]? = some
      { x := r * M.cos (((i : α) / (n : α)) * (M.PI * 2)),
        z := r * M.sin (((i : α) / (n : α)) * (M.PI * 2)) } := by
  simp [createSpheres_eq_map, h]

theorem updateOrbitRadius_spheres (M : JSMath α) (width : Int) (s : State α) :
    (updateOrbitRadius M width s).spheres
      = createSpheres M (updateOrbitRadius M width s).orbitradius s.spheres.length := by
  rw [createSpheres_eq_map]
  apply List.ext_getElem?
  intro i
  simp only [updateOrbitRadius, List.getElem?_mapIdx, List.getElem?_map]
  by_cases h : i < s.spheres.length
  · simp [h, List.getElem?_eq_getElem h]
  · have h2 : s.spheres.length ≤ i := Nat.le_of_not_lt h
    have h3 : (List.range s.spheres.length)[i]? = none :=
      List.getElem?_eq_none (by simpa using h2)
    simp [List.getElem?_eq_none h2, h3]

theorem handle_orbit (M : JSMath α) (dom : Dom) (s : State α) (ev : Event) (n : Nat)
    (h : s.spheres = createSpheres M s.orbitradius n) :
    (handle M dom s ev).1.spheres = createSpheres M (handle M dom s ev).1.orbitradius n := by
  cases ev with
  | wheel t deltaY =>
    obtain ⟨_, h2, h3, _⟩ := wheel_frame dom s t deltaY
    simp only [handle, h2, h3, h]
  | touchstart touches => cases touches <;> simpa [handle, touchstart] using h
  | touchend t changedTouches =>
    cases hs : s.touchStartY with
    | none => simpa [handle, touchend_none dom s t changedTouches hs] using h
    | some startY =>
      obtain ⟨_, h2, h3, _⟩ := wheel_frame dom s t (startY - changedTouches.headD startY)
      simp only [handle, touchend_eq_wheel dom s t startY changedTouches hs, h2, h3, h]
  | resize w =>
    have hl : s.spheres.length = n := by rw [h, createSpheres_length]
    simp only [handle]
    rw [updateOrbitRadius_spheres, hl]

theorem run_orbit (M : JSMath α) (dom : Dom) (n : Nat) (evs : List Event) (s : State α)
    (h : s.spheres = createSpheres M s.orbitradius n) :
    (run M dom s evs).spheres = createSpheres M (run M dom s evs).orbitradius n := by
  induction evs generalizing s with
  | nil => exact h
  | cons ev rest ih => exact ih _ (handle_orbit M dom s ev n h)

theorem init_orbit (M : JSMath α) (configs : List String) (innerWidth : Int) :
    (init M configs innerWidth).spheres
      = createSpheres M (init M configs innerWidth).orbitradius configs.length := by
  simp only [init]
  rw [updateOrbitRadius_spheres, createSpheres_length]

/-! ## Lemmas on sequences of events -/

theorem run_rotation (M : JSMath α) (dom : Dom) (evs : List Event) (s : State α) :
    (run M dom s evs).rotationStep = s.rotationStep ∧
    (run M dom s evs).rotationY
      = s.rotationY + (((directions M dom s evs).sum : Int) : α) * s.rotationStep := by
  induction evs generalizing s with
  | nil => simp [run, directions]
  | cons ev rest ih =>
    obtain ⟨ih1, ih2⟩ := ih (handle M dom s ev).1
    cases hd : issuedDirection (handle M dom s ev).2 with
    | none =>
      obtain ⟨_, _, h3, _, h5⟩ := handle_not_issued M dom s ev hd
      simp only [run, directions, hd]
      rw [ih1, ih2, h5, h3]
      exact ⟨rfl, rfl⟩
    | some d =>
      obtain ⟨_, _, _, _, _, _, _, h3, _, h5⟩ := handle_issued M dom s ev d hd
      simp only [run, directions, hd, List.sum_cons]
      rw [ih1, ih2, h5, h3]
      refine ⟨rfl, ?_⟩
      push_cast
      ring

theorem handle_index_range (M : JSMath α) (dom : Dom) (s : State α) (ev : Event)
    (stepHeight : ℚ) (itemCount : Nat)
    (hv : dom.titleViewport = some stepHeight) (hs : dom.titleStack = some itemCount)
    (hn : 1 ≤ itemCount)
    (hi : ∃ i : Int, s.currentTitleIndex = some i ∧ 0 ≤ i ∧ i < (itemCount : Int)) :
    ∃ i : Int, (handle M dom s ev).1.currentTitleIndex = some i ∧ 0 ≤ i ∧
      i < (itemCount : Int) := by
  obtain ⟨i, hi, h0, h1⟩ := hi
  cases hd : issuedDirection (handle M dom s ev).2 with
  | none =>
    obtain ⟨_, _, _, h4, _⟩ := handle_not_issued M dom s ev hd
    exact ⟨i, by rw [h4, hi], h0, h1⟩
  | some d =>
    refine ⟨_, index_after_issued M dom s ev stepHeight itemCount i d hv hs hn hi h0 hd,
      Int.emod_nonneg _ (by omega), Int.emod_lt_of_pos _ (by omega)⟩

theorem run_index_range (M : JSMath α) (dom : Dom) (stepHeight : ℚ) (itemCount : Nat)
    (hv : dom.titleViewport = some stepHeight) (hs : dom.titleStack = some itemCount)
    (hn : 1 ≤ itemCount) (evs : List Event) (s : State α)
    (hi : ∃ i : Int, s.currentTitleIndex = some i ∧ 0 ≤ i ∧ i < (itemCount : Int)) :
    ∃ i : Int, (run M dom s evs).currentTitleIndex = some i ∧ 0 ≤ i ∧
      i < (itemCount : Int) := by
  induction evs generalizing s with
  | nil => exact hi
  | cons ev rest ih =>
    exact ih _ (handle_index_range M dom s ev stepHeight itemCount hv hs hn hi)

theorem handle_index_absent (M : JSMath α) (dom : Dom) (s : State α) (ev : Event)
    (habs : dom.titleViewport = none ∨ dom.titleStack = none) :
    (handle M dom s ev).1.currentTitleIndex = s.currentTitleIndex := by
  cases hd : issuedDirection (handle M dom s ev).2 with
  | none => exact (handle_not_issued M dom s ev hd).2.2.2.1
  | some d =>
    obtain ⟨_, _, _, _, _, _, _, _, h4, _⟩ := handle_issued M dom s ev d hd
    rw [h4]
    rcases habs with h | h
    · rw [h]
    · rw [h]; cases dom.titleViewport <;> rfl

theorem run_index_absent (M : JSMath α) (dom : Dom)
    (habs : dom.titleViewport = none ∨ dom.titleStack = none) (evs : List Event)
    (s : State α) : (run M dom s evs).currentTitleIndex = s.currentTitleIndex := by
  induction evs generalizing s with
  | nil => rfl
  | cons ev rest ih =>
    simp only [run]
    rw [ih, handle_index_absent M dom s ev habs]

theorem transitions_of_nil (M : JSMath α) (dom : Dom) (s : State α) (ev : Event)
    (rest : List Event) (h : (handle M dom s ev).2 = []) :
    transitions M dom s (ev :: rest) = transitions M dom (handle M dom s ev).1 rest := by
  cases ev <;> simp [transitions, h]

theorem transitions_of_issued (M : JSMath α) (dom : Dom) (s : State α) (ev : Event)
    (rest : List Event) (now : Int) (hg : gestureTime s ev = some now)
    (h : (handle M dom s ev).2 ≠ []) :
    transitions M dom s (ev :: rest)
      = now :: transitions M dom (handle M dom s ev).1 rest := by
  obtain ⟨x, xs, hx⟩ := List.exists_cons_of_ne_nil h
  cases ev with
  | wheel t deltaY =>
    simp only [gestureTime, Option.some.injEq] at hg
    subst hg
    simp only [transitions, hx]
  | touchstart touches => simp [gestureTime] at hg
  | touchend t changedTouches =>
    cases hs : s.touchStartY with
    | none => simp [gestureTime, hs] at hg
    | some startY =>
      simp only [gestureTime, hs, Option.isSome_some, if_true, Option.some.injEq] at hg
      subst hg
      simp only [transitions, hx]
  | resize w => simp [gestureTime] at hg

/-- Every transition of a run lies at least 2000 ms after the throttle timestamp
the run started from and at least 2000 ms after every earlier transition. -/
theorem transitions_spaced (M : JSMath α) (dom : Dom) (evs : List Event) (s : State α) :
    (∀ t ∈ transitions M dom s evs, s.lastWheelTime + 2000 ≤ t) ∧
    (transitions M dom s evs).Pairwise (fun a b => a + 2000 ≤ b) := by
  induction evs generalizing s with
  | nil => simp [transitions]
  | cons ev rest ih =>
    obtain ⟨ih1, ih2⟩ := ih (handle M dom s ev).1
    cases hd : issuedDirection (handle M dom s ev).2 with
    | none =>
      obtain ⟨h1, h2, _⟩ := handle_not_issued M dom s ev hd
      rw [transitions_of_nil M dom s ev rest h1]
      rw [h2] at ih1
      exact ⟨ih1, ih2⟩
    | some d =>
      obtain ⟨now, _, hg, _, hok, _, hl, _⟩ := handle_issued M dom s ev d hd
      have hne : (handle M dom s ev).2 ≠ [] := by
        intro h0
        rw [h0] at hd
        simp [issuedDirection] at hd
      rw [transitions_of_issued M dom s ev rest now hg hne]
      rw [hl] at ih1
      constructor
      · intro t ht
        rcases List.mem_cons.mp ht with h | h
        · omega
        · have := ih1 t h
          omega
      · exact List.pairwise_cons.mpr ⟨ih1, ih2⟩

theorem spaced_window (l : List Int) (h : l.Pairwise (fun a b => a + 2000 ≤ b))
    (lo hi : Int) (hw : hi - lo < 2000) :
    (l.filter fun t => decide (lo ≤ t ∧ t ≤ hi)).length ≤ 1 := by
  have hp := h.filter (fun t => decide (lo ≤ t ∧ t ≤ hi))
  match hl : l.filter (fun t => decide (lo ≤ t ∧ t ≤ hi)) with
  | [] => simp
  | [_] => simp
  | a :: b :: rest =>
    exfalso
    rw [hl] at hp
    have hab : a + 2000 ≤ b := (List.pairwise_cons.mp hp).1 b (List.mem_cons_self b rest)
    have ha : a ∈ l.filter (fun t => decide (lo ≤ t ∧ t ≤ hi)) := by rw [hl]; simp
    have hb : b ∈ l.filter (fun t => decide (lo ≤ t ∧ t ≤ hi)) := by rw [hl]; simp
    have ha2 := (List.mem_filter.mp ha).2
    have hb2 := (List.mem_filter.mp hb).2
    simp only [decide_eq_true_eq] at ha2 hb2
    omega

theorem emod_step_ne (n : Nat) (i d : Int) (hn : 2 ≤ n) (h0 : 0 ≤ i) (h1 : i < (n : Int))
    (hd : d = 1 ∨ d = -1) : (i + d + (n : Int)) % (n : Int) ≠ i := by
  rw [Int.add_emod_self]
  rcases hd with h | h
  · subst h
    by_cases hlast : i + 1 < (n : Int)
    · rw [Int.emod_eq_of_lt (by omega) hlast]; omega
    · have e : i + 1 = (n : Int) := by omega
      rw [e, Int.emod_self]; omega
  · subst h
    by_cases hfirst : 1 ≤ i
    · rw [Int.emod_eq_of_lt (by omega) (by omega)]; omega
    · have e : i = 0 := by omega
      rw [e, ← Int.add_emod_self, Int.emod_eq_of_lt (by omega) (by omega)]; omega

theorem init_index (M : JSMath α) (configs : List String) (innerWidth : Int) :
    (init M configs innerWidth).currentTitleIndex = some 0 := rfl

/-! ## The claims -/

/-- C1: a gesture event (a wheel event, or a touchend with a recorded start)
arriving at time `now` less than 2000 ms after `lastWheelTime` issues no tween and
leaves `lastWheelTime`, `currentTitleIndex` and the rotation target unchanged (the
only variable it can change is `touchStartY`); otherwise it is accepted: it issues
a rotation tween and `lastWheelTime` becomes `now`. In particular, after an accepted
gesture at `now`, a second gesture at `now2` is dropped when `now2 - now < 2000`,
and both are accepted when `now2 - now ≥ 2000`. -/
theorem C1_throttle_gate (M : JSMath α) (dom : Dom) (s : State α) (ev : Event) (now : Int)
    (hg : gestureTime s ev = some now) :
    (now - s.lastWheelTime < 2000 →
      (handle M dom s ev).1.lastWheelTime = s.lastWheelTime ∧
      (handle M dom s ev).1.currentTitleIndex = s.currentTitleIndex ∧
      (handle M dom s ev).1.rotationY = s.rotationY ∧
      (handle M dom s ev).2 = [] ∧
      { (handle M dom s ev).1 with touchStartY := s.touchStartY } = s) ∧
    (2000 ≤ now - s.lastWheelTime →
      (handle M dom s ev).1.lastWheelTime = now ∧
      ∃ plus rest, (handle M dom s ev).2 = Tween.rotationY plus s.rotationStep :: rest) ∧
    (∀ (touches : List ℚ) (ev2 : Event) (now2 : Int),
      2000 ≤ now - s.lastWheelTime →
      gestureTime (touchstart (handle M dom s ev).1 touches) ev2 = some now2 →
      (now2 - now < 2000 →
        (handle M dom (touchstart (handle M dom s ev).1 touches) ev2).2 = [] ∧
        (handle M dom (touchstart (handle M dom s ev).1 touches) ev2).1.lastWheelTime = now ∧
        (handle M dom (touchstart (handle M dom s ev).1 touches) ev2).1.currentTitleIndex
          = (handle M dom s ev).1.currentTitleIndex ∧
        (handle M dom (touchstart (handle M dom s ev).1 touches) ev2).1.rotationY
          = (handle M dom s ev).1.rotationY) ∧
      (2000 ≤ now2 - now →
        (handle M dom s ev).2 ≠ [] ∧
        (handle M dom (touchstart (handle M dom s ev).1 touches) ev2).2 ≠ [] ∧
        (handle M dom (touchstart (handle M dom s ev).1 touches) ev2).1.lastWheelTime
          = now2)) := by
  have acc : ∀ (s0 : State α) (e : Event) (t : Int), gestureTime s0 e = some t →
      2000 ≤ t - s0.lastWheelTime →
      (handle M dom s0 e).1.lastWheelTime = t ∧
      ∃ plus rest, (handle M dom s0 e).2 = Tween.rotationY plus s0.rotationStep :: rest := by
    intro s0 e t ht hok
    obtain ⟨delta, hd⟩ := gestureDelta_of_time s0 e t ht
    obtain ⟨rest, hr⟩ := handle_accept M dom s0 e t delta ht hd hok
    have hi : issuedDirection (handle M dom s0 e).2
        = some (if decide (delta > 0) = true then 1 else -1) := by
      rw [hr]; rfl
    obtain ⟨t2, _, ht2, _, _, _, hl, _⟩ := handle_issued M dom s0 e _ hi
    rw [ht] at ht2
    cases ht2
    exact ⟨hl, _, rest, hr⟩
  have rej : ∀ (s0 : State α) (e : Event) (t : Int), gestureTime s0 e = some t →
      t - s0.lastWheelTime < 2000 →
      (handle M dom s0 e).1.lastWheelTime = s0.lastWheelTime ∧
      (handle M dom s0 e).1.currentTitleIndex = s0.currentTitleIndex ∧
      (handle M dom s0 e).1.rotationY = s0.rotationY ∧
      (handle M dom s0 e).2 = [] ∧
      { (handle M dom s0 e).1 with touchStartY := s0.touchStartY } = s0 := by
    intro s0 e t ht hlt
    obtain ⟨h1, h2⟩ := handle_reject M dom s0 e t ht hlt
    have h3 : issuedDirection (handle M dom s0 e).2 = none := by rw [h1]; rfl
    obtain ⟨_, h4, h5, h6, _⟩ := handle_not_issued M dom s0 e h3
    exact ⟨h4, h6, h5, h1, h2⟩
  refine ⟨rej s ev now hg, acc s ev now hg, ?_⟩
  intro touches ev2 now2 hok hg2
  obtain ⟨hl, plus, rest, hr⟩ := acc s ev now hg hok
  obtain ⟨f1, f2, f3, _⟩ := touchstart_frame (handle M dom s ev).1 touches
  constructor
  · intro hlt
    obtain ⟨h1, h2, h3, h4, _⟩ := rej _ ev2 now2 hg2 (by rw [f1, hl]; exact hlt)
    exact ⟨h4, by rw [h1, f1, hl], by rw [h2, f2], by rw [h3, f3]⟩
  · intro hge
    obtain ⟨h1, plus2, rest2, h2⟩ := acc _ ev2 now2 hg2 (by rw [f1, hl]; exact hge)
    exact ⟨by rw [hr]; simp, by rw [h2]; simp, h1⟩

/-- C2: with the heading viewport and a heading stack of `itemCount ≥ 1` children
present and `currentTitleIndex = i` in `[0, itemCount - 1]`, an accepted gesture of
direction `d` (`+1` or `-1`) sets `currentTitleIndex` to
`(i + d + itemCount) mod itemCount`, which is again in `[0, itemCount - 1]`; forward
from `itemCount - 1` gives `0`, backward from `0` gives `itemCount - 1`; and on
`itemCount = 4` from index `0` the gestures forward, forward, backward give the
indices `1`, `2`, `1`. -/
theorem C2_index_modular (M : JSMath α) (dom : Dom) (s : State α) (ev : Event)
    (stepHeight : ℚ) (itemCount : Nat) (i d : Int)
    (hv : dom.titleViewport = some stepHeight) (hs : dom.titleStack = some itemCount)
    (hn : 1 ≤ itemCount) (hi : s.currentTitleIndex = some i)
    (h0 : 0 ≤ i) (_h1 : i ≤ (itemCount : Int) - 1)
    (hd : issuedDirection (handle M dom s ev).2 = some d) :
    (d = 1 ∨ d = -1) ∧
    (handle M dom s ev).1.currentTitleIndex
      = some ((i + d + (itemCount : Int)) % (itemCount : Int)) ∧
    0 ≤ (i + d + (itemCount : Int)) % (itemCount : Int) ∧
    (i + d + (itemCount : Int)) % (itemCount : Int) ≤ (itemCount : Int) - 1 ∧
    (i = (itemCount : Int) - 1 → d = 1 →
      (handle M dom s ev).1.currentTitleIndex = some 0) ∧
    (i = 0 → d = -1 →
      (handle M dom s ev).1.currentTitleIndex = some ((itemCount : Int) - 1)) ∧
    (∀ (dom4 : Dom) (h4 : ℚ) (s0 : State α) (e1 e2 e3 : Event),
      dom4.titleViewport = some h4 → dom4.titleStack = some 4 →
      s0.currentTitleIndex = some 0 →
      issuedDirection (handle M dom4 s0 e1).2 = some 1 →
      issuedDirection (handle M dom4 (handle M dom4 s0 e1).1 e2).2 = some 1 →
      issuedDirection
        (handle M dom4 (handle M dom4 (handle M dom4 s0 e1).1 e2).1 e3).2 = some (-1) →
      (handle M dom4 s0 e1).1.currentTitleIndex = some 1 ∧
      (handle M dom4 (handle M dom4 s0 e1).1 e2).1.currentTitleIndex = some 2 ∧
      (handle M dom4 (handle M dom4 (handle M dom4 s0 e1).1 e2).1 e3).1.currentTitleIndex
        = some 1) := by
  have hidx := index_after_issued M dom s ev stepHeight itemCount i d hv hs hn hi h0 hd
  have hpos : (0 : Int) < (itemCount : Int) := by omega
  refine ⟨issuedDirection_cases _ d hd, hidx, Int.emod_nonneg _ (by omega), ?_, ?_, ?_, ?_⟩
  · have := Int.emod_lt_of_pos (i + d + (itemCount : Int)) hpos
    omega
  · intro hi1 hd1
    rw [hidx, hi1, hd1]
    simp
  · intro hi0 hd0
    have e : ((0 : Int) + -1 + (itemCount : Int)) % (itemCount : Int)
        = (itemCount : Int) - 1 := by
      have e1 : (0 : Int) + -1 + (itemCount : Int) = (itemCount : Int) - 1 := by omega
      rw [e1]
      exact Int.emod_eq_of_lt (by omega) (by omega)
    rw [hidx, hi0, hd0, e]
  · intro dom4 h4 s0 e1 e2 e3 hv4 hs4 hs0 hd1 hd2 hd3
    have a1 := index_after_issued M dom4 s0 e1 h4 4 0 1 hv4 hs4 (by decide) hs0 (by decide) hd1
    have a1' : (handle M dom4 s0 e1).1.currentTitleIndex = some 1 := by
      rw [a1]; rfl
    have a2 := index_after_issued M dom4 _ e2 h4 4 1 1 hv4 hs4 (by decide) a1' (by decide) hd2
    have a2' : (handle M dom4 (handle M dom4 s0 e1).1 e2).1.currentTitleIndex = some 2 := by
      rw [a2]; rfl
    have a3 := index_after_issued M dom4 _ e3 h4 4 2 (-1) hv4 hs4 (by decide) a2' (by decide) hd3
    exact ⟨a1', a2', by rw [a3]; rfl⟩

/-- C3: an accepted gesture goes forward (`"+="`, direction `+1`) exactly when its
delta is strictly positive and backward (`"-="`, direction `-1`) when the delta is
negative or zero; the delta is `deltaY` for a wheel event and `startY - endY` for a
swipe; a swipe that ends where it started, or whose touchend carries no changed
touch, goes backward. -/
theorem C3_direction_sign (dom : Dom) (s : State α) (now : Int)
    (hacc : 2000 ≤ now - s.lastWheelTime) :
    (∀ deltaY : ℚ,
      issuedDirection (wheel dom s now deltaY).2 = some (if 0 < deltaY then 1 else -1)) ∧
    (∀ (startY endY : ℚ) (others : List ℚ), s.touchStartY = some startY →
      issuedDirection (touchend dom s now (endY :: others)).2
        = some (if 0 < startY - endY then 1 else -1)) ∧
    (∀ startY : ℚ, s.touchStartY = some startY →
      issuedDirection (touchend dom s now []).2 = some (-1) ∧
      ∀ others : List ℚ,
        issuedDirection (touchend dom s now (startY :: others)).2 = some (-1)) := by
  have hn : ¬ now - s.lastWheelTime < 2000 := by omega
  have hw : ∀ deltaY : ℚ,
      issuedDirection (wheel dom s now deltaY).2 = some (if 0 < deltaY then 1 else -1) := by
    intro deltaY
    obtain ⟨_, _, _, rest, h4⟩ := wheel_accept dom s now deltaY hn
    rw [h4]
    by_cases hp : 0 < deltaY <;> simp [issuedDirection, hp]
  refine ⟨hw, ?_, ?_⟩
  · intro startY endY others hs
    rw [touchend_eq_wheel dom s now startY (endY :: others) hs]
    exact hw _
  · intro startY hs
    constructor
    · rw [touchend_eq_wheel dom s now startY [] hs]
      simpa using hw (startY - startY)
    · intro others
      rw [touchend_eq_wheel dom s now startY (startY :: others) hs]
      simpa using hw (startY - startY)

/-- C10: for every state with a recorded touch start, every time and every delta,
a touchend whose `startY - endY` equals `delta` yields the same `lastWheelTime`,
`currentTitleIndex`, rotation target and list of tween requests as a wheel event
with `deltaY = delta`; the two resulting states differ only in that the swipe has
cleared `touchStartY`. -/
theorem C10_swipe_equals_wheel (dom : Dom) (s : State α) (now : Int) (delta : ℚ)
    (changedTouches : List ℚ)
    (hd : gestureDelta s (Event.touchend now changedTouches) = some delta) :
    (touchend dom s now changedTouches).1.lastWheelTime
      = (wheel dom s now delta).1.lastWheelTime ∧
    (touchend dom s now changedTouches).1.currentTitleIndex
      = (wheel dom s now delta).1.currentTitleIndex ∧
    (touchend dom s now changedTouches).1.rotationY = (wheel dom s now delta).1.rotationY ∧
    (touchend dom s now changedTouches).2 = (wheel dom s now delta).2 ∧
    (touchend dom s now changedTouches).1
      = { (wheel dom s now delta).1 with touchStartY := none } := by
  cases hs : s.touchStartY with
  | none => cases changedTouches <;> simp [gestureDelta, hs] at hd
  | some startY =>
    rw [gestureDelta_touchend s now startY changedTouches hs, Option.some.injEq] at hd
    rw [touchend_eq_wheel dom s now startY changedTouches hs, hd]
    exact ⟨rfl, rfl, rfl, rfl, rfl⟩

/-- C6: for every state and every finite sequence of events with arbitrary
timestamps, the accepted gestures (the events that issued tweens) have timestamps
in which each one is at least 2000 ms after every earlier one, so in any time window
shorter than 2000 ms at most one transition is issued. -/
theorem C6_one_gesture_per_window (M : JSMath α) (dom : Dom) (s : State α)
    (evs : List Event) :
    (transitions M dom s evs).Pairwise (fun a b => a + 2000 ≤ b) ∧
    (∀ lo hi : Int, hi - lo < 2000 →
      ((transitions M dom s evs).filter fun t => decide (lo ≤ t ∧ t ≤ hi)).length ≤ 1) :=
  ⟨(transitions_spaced M dom evs s).2,
    fun lo hi hw => spaced_window _ (transitions_spaced M dom evs s).2 lo hi hw⟩

/-- C5: over the reals, the rotation step is `2π / N` for `N ≥ 1` planets, which
is `π / 2` for the four configured ones, and it never changes afterwards; an
accepted gesture of direction `d` moves the rotation target by exactly
`d * rotationStep`; hence any stretch of events in which exactly `N` gestures are
accepted, all forward, moves the rotation target by exactly `2π`, that is back to
its starting value modulo `2π`. -/
theorem C5_rotation_step (configs : List String) (dom : Dom) (w0 : Int)
    (hN : 1 ≤ configs.length) :
    (init (JSMath.mk Real.pi Real.cos Real.sin) configs w0).rotationStep
      = 2 * Real.pi / (configs.length : ℝ) ∧
    (init (JSMath.mk Real.pi Real.cos Real.sin) planetConfigs w0).rotationStep
      = Real.pi / 2 ∧
    (∀ pre : List Event,
      (run (JSMath.mk Real.pi Real.cos Real.sin) dom
        (init (JSMath.mk Real.pi Real.cos Real.sin) configs w0) pre).rotationStep
        = 2 * Real.pi / (configs.length : ℝ)) ∧
    (∀ (s : State ℝ) (ev : Event) (d : Int),
      issuedDirection (handle (JSMath.mk Real.pi Real.cos Real.sin) dom s ev).2 = some d →
      (handle (JSMath.mk Real.pi Real.cos Real.sin) dom s ev).1.rotationY
        = s.rotationY + (d : ℝ) * s.rotationStep) ∧
    (∀ pre evs : List Event,
      directions (JSMath.mk Real.pi Real.cos Real.sin) dom
        (run (JSMath.mk Real.pi Real.cos Real.sin) dom
          (init (JSMath.mk Real.pi Real.cos Real.sin) configs w0) pre) evs
        = List.replicate configs.length 1 →
      (run (JSMath.mk Real.pi Real.cos Real.sin) dom
        (run (JSMath.mk Real.pi Real.cos Real.sin) dom
          (init (JSMath.mk Real.pi Real.cos Real.sin) configs w0) pre) evs).rotationY
        = (run (JSMath.mk Real.pi Real.cos Real.sin) dom
          (init (JSMath.mk Real.pi Real.cos Real.sin) configs w0) pre).rotationY
          + 2 * Real.pi) := by
  have hinit : ∀ cs : List String,
      (init (JSMath.mk Real.pi Real.cos Real.sin) cs w0).rotationStep
        = 2 * Real.pi / (cs.length : ℝ) := by
    intro cs
    simp only [init, updateOrbitRadius]
    ring
  have hrun : ∀ pre : List Event,
      (run (JSMath.mk Real.pi Real.cos Real.sin) dom
        (init (JSMath.mk Real.pi Real.cos Real.sin) configs w0) pre).rotationStep
        = 2 * Real.pi / (configs.length : ℝ) := by
    intro pre
    rw [(run_rotation _ dom pre _).1, hinit]
  refine ⟨hinit configs, ?_, hrun, ?_, ?_⟩
  · rw [hinit]
    simp only [planetConfigs, List.length_cons, List.length_nil]
    norm_num
    ring
  · intro s ev d hd
    obtain ⟨_, _, _, _, _, _, _, h3, _⟩ := handle_issued _ dom s ev d hd
    exact h3
  · intro pre evs hdir
    rw [(run_rotation _ dom evs _).2, hdir, hrun pre]
    have hpos : (0 : ℝ) < (configs.length : ℝ) := by exact_mod_cast hN
    simp only [List.sum_replicate, smul_eq_mul, mul_one, Int.cast_natCast]
    field_simp

/-- C7: over the reals, in the state reached from scene construction by any
sequence of events (resizes of any width included), the group holds `N` items, item
`i` sits at `x = radius * cos (2π i / N)`, `z = radius * sin (2π i / N)` for the
current orbit radius, so `x² + z² = radius²`; the layout after a reposition is the
one the creation loop would give with the new radius (same angle per item), and the
creation loop itself places item `i` at that angle. -/
theorem C7_orbit_positions (configs : List String) (dom : Dom) (w0 : Int)
    (evs : List Event) (i : Nat) (hi : i < configs.length) :
    (run (JSMath.mk Real.pi Real.cos Real.sin) dom
      (init (JSMath.mk Real.pi Real.cos Real.sin) configs w0) evs).spheres.length
      = configs.length ∧
    (∃ p : Sphere ℝ,
      (run (JSMath.mk Real.pi Real.cos Real.sin) dom
        (init (JSMath.mk Real.pi Real.cos Real.sin) configs w0) evs).spheres[i]? = some p ∧
      p.x = (run (JSMath.mk Real.pi Real.cos Real.sin) dom
          (init (JSMath.mk Real.pi Real.cos Real.sin) configs w0) evs).orbitradius
        * Real.cos (2 * Real.pi * (i : ℝ) / (configs.length : ℝ)) ∧
      p.z = (run (JSMath.mk Real.pi Real.cos Real.sin) dom
          (init (JSMath.mk Real.pi Real.cos Real.sin) configs w0) evs).orbitradius
        * Real.sin (2 * Real.pi * (i : ℝ) / (configs.length : ℝ)) ∧
      p.x ^ 2 + p.z ^ 2 = (run (JSMath.mk Real.pi Real.cos Real.sin) dom
          (init (JSMath.mk Real.pi Real.cos Real.sin) configs w0) evs).orbitradius ^ 2) ∧
    (∀ (s : State ℝ) (width : Int), s.spheres.length = configs.length →
      (updateOrbitRadius (JSMath.mk Real.pi Real.cos Real.sin) width s).spheres
        = createSpheres (JSMath.mk Real.pi Real.cos Real.sin)
          (updateOrbitRadius (JSMath.mk Real.pi Real.cos Real.sin) width s).orbitradius
          configs.length) ∧
    (∀ r : ℝ,
      (createSpheres (JSMath.mk Real.pi Real.cos Real.sin) r configs.length)[i]?
        = some { x := r * Real.cos (2 * Real.pi * (i : ℝ) / (configs.length : ℝ)),
                 z := r * Real.sin (2 * Real.pi * (i : ℝ) / (configs.length : ℝ)) }) := by
  have hang : (i : ℝ) / (configs.length : ℝ) * (Real.pi * 2)
      = 2 * Real.pi * (i : ℝ) / (configs.length : ℝ) := by ring
  have hcreate : ∀ r : ℝ,
      (createSpheres (JSMath.mk Real.pi Real.cos Real.sin) r configs.length)[i]?
        = some { x := r * Real.cos (2 * Real.pi * (i : ℝ) / (configs.length : ℝ)),
                 z := r * Real.sin (2 * Real.pi * (i : ℝ) / (configs.length : ℝ)) } := by
    intro r
    rw [createSpheres_getElem? _ r configs.length i hi]
    simp only [hang]
  have hsp := run_orbit (JSMath.mk Real.pi Real.cos Real.sin) dom configs.length evs _
    (init_orbit (JSMath.mk Real.pi Real.cos Real.sin) configs w0)
  refine ⟨?_, ?_, ?_, hcreate⟩
  · rw [hsp, createSpheres_length]
  · refine ⟨_, by rw [hsp]; exact hcreate _, rfl, rfl, ?_⟩
    simp only
    have h1 := Real.cos_sq_add_sin_sq (2 * Real.pi * (i : ℝ) / (configs.length : ℝ))
    calc _ = (run (JSMath.mk Real.pi Real.cos Real.sin) dom
          (init (JSMath.mk Real.pi Real.cos Real.sin) configs w0) evs).orbitradius ^ 2
          * (Real.cos (2 * Real.pi * (i : ℝ) / (configs.length : ℝ)) ^ 2
            + Real.sin (2 * Real.pi * (i : ℝ) / (configs.length : ℝ)) ^ 2) := by ring
      _ = _ := by rw [h1, mul_one]
  · intro s width hl
    rw [updateOrbitRadius_spheres, hl]

/-- C8: over the reals, for every viewport width `w`, `updateOrbitRadius` sets the
orbit radius to `3.2` if `w < 480`, `3.8` if `480 ≤ w < 768`, `4.2` if
`768 ≤ w < 1024`, and `4.5` otherwise; the scene built at width `1200` has radius
`4.5` and a resize to width `400` changes it to `3.2`. -/
theorem C8_radius_step (dom : Dom) (w : Int) (s : State ℝ) :
    (w < 480 →
      (updateOrbitRadius (JSMath.mk Real.pi Real.cos Real.sin) w s).orbitradius = 3.2) ∧
    (480 ≤ w → w < 768 →
      (updateOrbitRadius (JSMath.mk Real.pi Real.cos Real.sin) w s).orbitradius = 3.8) ∧
    (768 ≤ w → w < 1024 →
      (updateOrbitRadius (JSMath.mk Real.pi Real.cos Real.sin) w s).orbitradius = 4.2) ∧
    (1024 ≤ w →
      (updateOrbitRadius (JSMath.mk Real.pi Real.cos Real.sin) w s).orbitradius = 4.5) ∧
    (init (JSMath.mk Real.pi Real.cos Real.sin) planetConfigs 1200).orbitradius = 4.5 ∧
    (handle (JSMath.mk Real.pi Real.cos Real.sin) dom
      (init (JSMath.mk Real.pi Real.cos Real.sin) planetConfigs 1200)
      (Event.resize 400)).1.orbitradius = 3.2 ∧
    (4.5 : ℝ) ≠ 3.2 := by
  refine ⟨?_, ?_, ?_, ?_, ?_, ?_, by norm_num⟩
  · intro h
    simp [updateOrbitRadius, h]
  · intro h1 h2
    have h3 : ¬ w < 480 := by omega
    simp [updateOrbitRadius, h2, h3]
  · intro h1 h2
    have h3 : ¬ w < 480 := by omega
    have h4 : ¬ w < 768 := by omega
    simp [updateOrbitRadius, h2, h3, h4]
  · intro h1
    have h3 : ¬ w < 480 := by omega
    have h4 : ¬ w < 768 := by omega
    have h5 : ¬ w < 1024 := by omega
    simp [updateOrbitRadius, h3, h4, h5]
  · simp [init, updateOrbitRadius]
  · simp [handle, updateOrbitRadius]

/-- C4, as stated, fails: on a page without the heading elements, the first wheel
event on the freshly built scene is accepted, the rotation target moves by `π / 2`
and `currentTitleIndex` stays where it was; the same happens on a page with a single
heading, where the index is updated to `(0 + 1 + 1) % 1 = 0`. -/
theorem C4_rotation_alone_counterexample :
    issuedDirection (handle (JSMath.mk Real.pi Real.cos Real.sin) bareDom
      (init (JSMath.mk Real.pi Real.cos Real.sin) planetConfigs 1200)
      (Event.wheel 1790000000000 120)).2 = some 1 ∧
    (handle (JSMath.mk Real.pi Real.cos Real.sin) bareDom
      (init (JSMath.mk Real.pi Real.cos Real.sin) planetConfigs 1200)
      (Event.wheel 1790000000000 120)).1.rotationY
      = (init (JSMath.mk Real.pi Real.cos Real.sin) planetConfigs 1200).rotationY
        + Real.pi / 2 ∧
    (handle (JSMath.mk Real.pi Real.cos Real.sin) bareDom
      (init (JSMath.mk Real.pi Real.cos Real.sin) planetConfigs 1200)
      (Event.wheel 1790000000000 120)).1.rotationY
      ≠ (init (JSMath.mk Real.pi Real.cos Real.sin) planetConfigs 1200).rotationY ∧
    (handle (JSMath.mk Real.pi Real.cos Real.sin) bareDom
      (init (JSMath.mk Real.pi Real.cos Real.sin) planetConfigs 1200)
      (Event.wheel 1790000000000 120)).1.currentTitleIndex
      = (init (JSMath.mk Real.pi Real.cos Real.sin) planetConfigs 1200).currentTitleIndex ∧
    issuedDirection (handle (JSMath.mk Real.pi Real.cos Real.sin) singleHeadingDom (init (JSMath.mk Real.pi Real.cos Real.sin) planetConfigs 1200) (Event.wheel 1790000000000 120)).2
      = some 1 ∧
    (handle (JSMath.mk Real.pi Real.cos Real.sin) singleHeadingDom (init (JSMath.mk Real.pi Real.cos Real.sin) planetConfigs 1200) (Event.wheel 1790000000000 120)).1.rotationY
      ≠ (init (JSMath.mk Real.pi Real.cos Real.sin) planetConfigs 1200).rotationY ∧
    (handle (JSMath.mk Real.pi Real.cos Real.sin) singleHeadingDom (init (JSMath.mk Real.pi Real.cos Real.sin) planetConfigs 1200) (Event.wheel 1790000000000 120)).1.currentTitleIndex
      = (init (JSMath.mk Real.pi Real.cos Real.sin) planetConfigs 1200).currentTitleIndex := by
  have hpi := Real.pi_pos
  refine ⟨?_, ?_, ?_, ?_, ?_, ?_, ?_⟩
  · simp [handle, wheel, init, updateOrbitRadius, bareDom, throttleDelay, issuedDirection]
  · simp [handle, wheel, init, updateOrbitRadius, bareDom, throttleDelay, planetConfigs]
    ring
  · simp [handle, wheel, init, updateOrbitRadius, bareDom, throttleDelay, planetConfigs]
    exact hpi.ne'
  · simp [handle, wheel, init, updateOrbitRadius, bareDom, throttleDelay]
  · simp [handle, wheel, init, updateOrbitRadius, singleHeadingDom, throttleDelay,
      issuedDirection]
  · simp [handle, wheel, init, updateOrbitRadius, singleHeadingDom, throttleDelay,
      planetConfigs]
    exact hpi.ne'
  · simp [handle, wheel, init, updateOrbitRadius, singleHeadingDom, throttleDelay, jsRem]

/-- C4 amended: in every state reached from scene construction (with `N ≥ 1`
planets), an accepted gesture of direction `d` moves the rotation target by exactly
`d * 2π / N`, so the rotation always advances; when the heading viewport and a
heading stack of `n ≥ 1` children are both present the index is in range and
advances by the same `d` modulo `n` (and really changes when `n ≥ 2`); when either
heading element is absent the index is left unchanged. -/
theorem C4_lockstep_when_headings_present (configs : List String) (dom : Dom) (w0 : Int)
    (pre : List Event) (ev : Event) (d : Int) (hN : 1 ≤ configs.length)
    (hd : issuedDirection (handle (JSMath.mk Real.pi Real.cos Real.sin) dom
      (run (JSMath.mk Real.pi Real.cos Real.sin) dom
        (init (JSMath.mk Real.pi Real.cos Real.sin) configs w0) pre) ev).2 = some d) :
    (d = 1 ∨ d = -1) ∧
    (handle (JSMath.mk Real.pi Real.cos Real.sin) dom
      (run (JSMath.mk Real.pi Real.cos Real.sin) dom
        (init (JSMath.mk Real.pi Real.cos Real.sin) configs w0) pre) ev).1.rotationY
      = (run (JSMath.mk Real.pi Real.cos Real.sin) dom
        (init (JSMath.mk Real.pi Real.cos Real.sin) configs w0) pre).rotationY
        + (d : ℝ) * (2 * Real.pi / (configs.length : ℝ)) ∧
    (handle (JSMath.mk Real.pi Real.cos Real.sin) dom
      (run (JSMath.mk Real.pi Real.cos Real.sin) dom
        (init (JSMath.mk Real.pi Real.cos Real.sin) configs w0) pre) ev).1.rotationY
      ≠ (run (JSMath.mk Real.pi Real.cos Real.sin) dom
        (init (JSMath.mk Real.pi Real.cos Real.sin) configs w0) pre).rotationY ∧
    (∀ (stepHeight : ℚ) (n : Nat), dom.titleViewport = some stepHeight →
      dom.titleStack = some n → 1 ≤ n →
      ∃ i : Int,
        (run (JSMath.mk Real.pi Real.cos Real.sin) dom
          (init (JSMath.mk Real.pi Real.cos Real.sin) configs w0) pre).currentTitleIndex
          = some i ∧
        0 ≤ i ∧ i < (n : Int) ∧
        (handle (JSMath.mk Real.pi Real.cos Real.sin) dom
          (run (JSMath.mk Real.pi Real.cos Real.sin) dom
            (init (JSMath.mk Real.pi Real.cos Real.sin) configs w0) pre) ev).1.currentTitleIndex
          = some ((i + d) % (n : Int)) ∧
        (2 ≤ n → (i + d) % (n : Int) ≠ i)) ∧
    (dom.titleViewport = none ∨ dom.titleStack = none →
      (handle (JSMath.mk Real.pi Real.cos Real.sin) dom
        (run (JSMath.mk Real.pi Real.cos Real.sin) dom
          (init (JSMath.mk Real.pi Real.cos Real.sin) configs w0) pre) ev).1.currentTitleIndex
        = (run (JSMath.mk Real.pi Real.cos Real.sin) dom
          (init (JSMath.mk Real.pi Real.cos Real.sin) configs w0) pre).currentTitleIndex) := by
  have hdc := issuedDirection_cases _ d hd
  obtain ⟨_, _, _, _, _, _, _, hrot, _, _⟩ := handle_issued _ dom _ ev d hd
  have hstep : (run (JSMath.mk Real.pi Real.cos Real.sin) dom
      (init (JSMath.mk Real.pi Real.cos Real.sin) configs w0) pre).rotationStep
      = 2 * Real.pi / (configs.length : ℝ) := by
    rw [(run_rotation _ dom pre _).1]
    simp only [init, updateOrbitRadius]
    ring
  have hpos : (0 : ℝ) < (configs.length : ℝ) := by exact_mod_cast hN
  have hne : (d : ℝ) * (2 * Real.pi / (configs.length : ℝ)) ≠ 0 := by
    have hd0 : (d : ℝ) ≠ 0 := by
      rcases hdc with h | h <;> simp [h]
    have := Real.pi_pos
    positivity
  rw [hstep] at hrot
  refine ⟨hdc, hrot, ?_, ?_, ?_⟩
  · rw [hrot]
    intro h
    exact hne (by linarith)
  · intro stepHeight n hv hs hn
    obtain ⟨i, hi, h0, h1⟩ := run_index_range (JSMath.mk Real.pi Real.cos Real.sin) dom
      stepHeight n hv hs hn pre (init (JSMath.mk Real.pi Real.cos Real.sin) configs w0)
      ⟨0, init_index _ configs w0, le_refl 0, by omega⟩
    refine ⟨i, hi, h0, h1, ?_, ?_⟩
    · rw [index_after_issued _ dom _ ev stepHeight n i d hv hs hn hi h0 hd,
        Int.add_emod_self]
    · intro h2
      have := emod_step_ne n i d h2 h0 h1 hdc
      rwa [Int.add_emod_self] at this
  · intro habs
    exact handle_index_absent _ dom _ ev habs

/-- C9 fails on the code: with the heading viewport and the heading stack both
present and the stack empty, the first wheel event on the freshly built scene is
accepted with modulus `0`, `currentTitleIndex` becomes `NaN` and the heading offset
requested is `NaN`; the same holds for every accepted gesture in every state of
such a page, so the index stays `NaN` from then on. The unused helper
`getMaxTitleIndex` does clamp the empty stack to `0`. -/
theorem C9_empty_stack_gives_NaN :
    (handle (JSMath.mk Real.pi Real.cos Real.sin) emptyStackDom
      (init (JSMath.mk Real.pi Real.cos Real.sin) planetConfigs 1200)
      (Event.wheel 1790000000000 120)).1.currentTitleIndex = none ∧
    (∃ step : ℝ,
      (handle (JSMath.mk Real.pi Real.cos Real.sin) emptyStackDom
        (init (JSMath.mk Real.pi Real.cos Real.sin) planetConfigs 1200)
        (Event.wheel 1790000000000 120)).2
        = [Tween.rotationY true step, Tween.titleStackY none]) ∧
    (∀ (s : State ℝ) (ev : Event) (d : Int),
      issuedDirection (handle (JSMath.mk Real.pi Real.cos Real.sin) emptyStackDom s ev).2
        = some d →
      (handle (JSMath.mk Real.pi Real.cos Real.sin) emptyStackDom s ev).1.currentTitleIndex
        = none) ∧
    getMaxTitleIndex emptyStackDom = 0 := by
  refine ⟨?_, ?_, ?_, by decide⟩
  · simp [handle, wheel, init, updateOrbitRadius, emptyStackDom, throttleDelay, jsRem]
  · simp [handle, wheel, init, updateOrbitRadius, emptyStackDom, throttleDelay, jsRem, offsetY]
  · intro s ev d hd
    obtain ⟨_, _, _, _, _, _, _, _, hidx, _⟩ := handle_issued _ emptyStackDom s ev d hd
    rw [hidx]
    simp only [emptyStackDom]
    cases s.currentTitleIndex <;> simp [jsRem]

/-! ## Concrete instances -/

/-- C1 at a concrete input: the first wheel event on the freshly built scene is
accepted, and a wheel event 500 ms later is dropped. -/
theorem C1_throttle_gate_witness :
    gestureTime (init (JSMath.mk Real.pi Real.cos Real.sin) planetConfigs 1200) (Event.wheel 1790000000000 120) = some 1790000000000 ∧
    (handle (JSMath.mk Real.pi Real.cos Real.sin) pageDom (init (JSMath.mk Real.pi Real.cos Real.sin) planetConfigs 1200) (Event.wheel 1790000000000 120)).1.lastWheelTime
      = 1790000000000 ∧
    (handle (JSMath.mk Real.pi Real.cos Real.sin) pageDom
      (touchstart (handle (JSMath.mk Real.pi Real.cos Real.sin) pageDom (init (JSMath.mk Real.pi Real.cos Real.sin) planetConfigs 1200) (Event.wheel 1790000000000 120)).1 [])
      (Event.wheel 1790000000500 120)).2 = [] :=
  ⟨rfl,
    ((C1_throttle_gate (JSMath.mk Real.pi Real.cos Real.sin) pageDom (init (JSMath.mk Real.pi Real.cos Real.sin) planetConfigs 1200) (Event.wheel 1790000000000 120) 1790000000000
      rfl).2.1 (by simp [init, updateOrbitRadius])).1,
    (((C1_throttle_gate (JSMath.mk Real.pi Real.cos Real.sin) pageDom (init (JSMath.mk Real.pi Real.cos Real.sin) planetConfigs 1200) (Event.wheel 1790000000000 120) 1790000000000
      rfl).2.2 [] (Event.wheel 1790000000500 120) 1790000000500
      (by simp [init, updateOrbitRadius]) rfl).1 (by norm_num)).1⟩

/-- C2 at a concrete input: on the four-heading page a forward wheel event from
index `0` gives index `(0 + 1 + 4) % 4`. -/
theorem C2_index_modular_witness :
    issuedDirection (handle (JSMath.mk Real.pi Real.cos Real.sin) pageDom (init (JSMath.mk Real.pi Real.cos Real.sin) planetConfigs 1200) (Event.wheel 1790000000000 120)).2 = some 1 ∧
    (handle (JSMath.mk Real.pi Real.cos Real.sin) pageDom (init (JSMath.mk Real.pi Real.cos Real.sin) planetConfigs 1200) (Event.wheel 1790000000000 120)).1.currentTitleIndex
      = some ((0 + 1 + ((4 : Nat) : Int)) % ((4 : Nat) : Int)) :=
  ⟨by simp [handle, wheel, init, updateOrbitRadius, pageDom, throttleDelay, issuedDirection],
    (C2_index_modular (JSMath.mk Real.pi Real.cos Real.sin) pageDom (init (JSMath.mk Real.pi Real.cos Real.sin) planetConfigs 1200) (Event.wheel 1790000000000 120) 120 4 0 1 rfl rfl
      (by decide) rfl (by decide) (by decide)
      (by simp [handle, wheel, init, updateOrbitRadius, pageDom, throttleDelay,
        issuedDirection])).2.1⟩

/-- C3 at a concrete input: after a touch start at `y = 300`, a touchend without
changed touches is accepted as a backward gesture. -/
theorem C3_direction_sign_witness :
    2000 ≤ 1790000000000 - (touchstart (init (JSMath.mk Real.pi Real.cos Real.sin) planetConfigs 1200) [300]).lastWheelTime ∧
    issuedDirection (touchend pageDom (touchstart (init (JSMath.mk Real.pi Real.cos Real.sin) planetConfigs 1200) [300]) 1790000000000 []).2
      = some (-1) :=
  ⟨by simp [touchstart, init, updateOrbitRadius],
    ((C3_direction_sign pageDom (touchstart (init (JSMath.mk Real.pi Real.cos Real.sin) planetConfigs 1200) [300]) 1790000000000
      (by simp [touchstart, init, updateOrbitRadius])).2.2 300 rfl).1⟩

/-- C10 at a concrete input: a swipe from `y = 300` to `y = 100` against a wheel
event with `deltaY = 200`. -/
theorem C10_swipe_equals_wheel_witness :
    gestureDelta (touchstart (init (JSMath.mk Real.pi Real.cos Real.sin) planetConfigs 1200) [300]) (Event.touchend 1790000000000 [100]) = some 200 ∧
    (touchend pageDom (touchstart (init (JSMath.mk Real.pi Real.cos Real.sin) planetConfigs 1200) [300]) 1790000000000 [100]).2
      = (wheel pageDom (touchstart (init (JSMath.mk Real.pi Real.cos Real.sin) planetConfigs 1200) [300]) 1790000000000 200).2 :=
  ⟨by simp [gestureDelta, touchstart]; norm_num,
    (C10_swipe_equals_wheel pageDom (touchstart (init (JSMath.mk Real.pi Real.cos Real.sin) planetConfigs 1200) [300]) 1790000000000 200 [100]
      (by simp [gestureDelta, touchstart]; norm_num)).2.2.2.1⟩

/-- C4 (amended) at a concrete input: the first wheel event on the four-heading
page. -/
theorem C4_lockstep_when_headings_present_witness :
    1 ≤ planetConfigs.length ∧
    issuedDirection (handle (JSMath.mk Real.pi Real.cos Real.sin) pageDom (run (JSMath.mk Real.pi Real.cos Real.sin) pageDom (init (JSMath.mk Real.pi Real.cos Real.sin) planetConfigs 1200) [])
      (Event.wheel 1790000000000 120)).2 = some 1 ∧
    (handle (JSMath.mk Real.pi Real.cos Real.sin) pageDom (run (JSMath.mk Real.pi Real.cos Real.sin) pageDom (init (JSMath.mk Real.pi Real.cos Real.sin) planetConfigs 1200) []) (Event.wheel 1790000000000 120)).1.rotationY
      = (run (JSMath.mk Real.pi Real.cos Real.sin) pageDom (init (JSMath.mk Real.pi Real.cos Real.sin) planetConfigs 1200) []).rotationY
        + ((1 : Int) : ℝ) * (2 * Real.pi / (planetConfigs.length : ℝ)) :=
  ⟨by decide,
    by simp [run, handle, wheel, init, updateOrbitRadius, pageDom, throttleDelay,
      issuedDirection],
    (C4_lockstep_when_headings_present planetConfigs pageDom 1200 []
      (Event.wheel 1790000000000 120) 1 (by decide)
      (by simp [run, handle, wheel, init, updateOrbitRadius, pageDom, throttleDelay,
        issuedDirection])).2.1⟩

/-- C5 at a concrete input: the four configured planets, and the sample stream, in
which exactly four gestures are accepted, all forward. -/
theorem C5_rotation_step_witness :
    1 ≤ planetConfigs.length ∧
    directions (JSMath.mk Real.pi Real.cos Real.sin) pageDom (run (JSMath.mk Real.pi Real.cos Real.sin) pageDom (init (JSMath.mk Real.pi Real.cos Real.sin) planetConfigs 1200) []) sampleEvents
      = List.replicate planetConfigs.length 1 ∧
    (run (JSMath.mk Real.pi Real.cos Real.sin) pageDom (run (JSMath.mk Real.pi Real.cos Real.sin) pageDom (init (JSMath.mk Real.pi Real.cos Real.sin) planetConfigs 1200) []) sampleEvents).rotationY
      = (run (JSMath.mk Real.pi Real.cos Real.sin) pageDom (init (JSMath.mk Real.pi Real.cos Real.sin) planetConfigs 1200) []).rotationY + 2 * Real.pi :=
  have hdir : directions (JSMath.mk Real.pi Real.cos Real.sin) pageDom (run (JSMath.mk Real.pi Real.cos Real.sin) pageDom (init (JSMath.mk Real.pi Real.cos Real.sin) planetConfigs 1200) []) sampleEvents
      = List.replicate planetConfigs.length 1 := by
    simp [directions, sampleEvents, run, handle, wheel, touchend, touchstart, init,
      updateOrbitRadius, pageDom, throttleDelay, issuedDirection, planetConfigs,
      List.replicate]
    norm_num
  ⟨by decide, hdir,
    (C5_rotation_step planetConfigs pageDom 1200 (by decide)).2.2.2.2 [] sampleEvents hdir⟩

/-- C6 at a concrete input: in the sample stream no two transitions fall into the
window from `1790000000000` to `1790000001999`. -/
theorem C6_one_gesture_per_window_witness :
    (1790000001999 : Int) - 1790000000000 < 2000 ∧
    ((transitions (JSMath.mk Real.pi Real.cos Real.sin) pageDom (init (JSMath.mk Real.pi Real.cos Real.sin) planetConfigs 1200) sampleEvents).filter
      fun t => decide (1790000000000 ≤ t ∧ t ≤ 1790000001999)).length ≤ 1 :=
  ⟨by decide,
    (C6_one_gesture_per_window (JSMath.mk Real.pi Real.cos Real.sin) pageDom (init (JSMath.mk Real.pi Real.cos Real.sin) planetConfigs 1200) sampleEvents).2
      1790000000000 1790000001999 (by decide)⟩

/-- C7 at a concrete input: item `2` of the four planets after a resize to width
`400`. -/
theorem C7_orbit_positions_witness :
    2 < planetConfigs.length ∧
    (run (JSMath.mk Real.pi Real.cos Real.sin) pageDom (init (JSMath.mk Real.pi Real.cos Real.sin) planetConfigs 1200) [Event.resize 400]).spheres.length = planetConfigs.length :=
  ⟨by decide, (C7_orbit_positions planetConfigs pageDom 1200 [Event.resize 400] 2
    (by decide)).1⟩

/-- C8 at a concrete input: width `400`. -/
theorem C8_radius_step_witness :
    (400 : Int) < 480 ∧
    (updateOrbitRadius (JSMath.mk Real.pi Real.cos Real.sin) 400 (init (JSMath.mk Real.pi Real.cos Real.sin) planetConfigs 1200)).orbitradius = 3.2 :=
  ⟨by decide, (C8_radius_step pageDom 400 (init (JSMath.mk Real.pi Real.cos Real.sin) planetConfigs 1200)).1 (by decide)⟩

end Planets
